import Mathlib

/-!
Shallow embedding of the batch synthesis pipeline of `agents.py` in the
repository sfpatton/AIDataGenerator, together with proofs about its
behaviour.

Modelling conventions:
- Python strings are modelled by Lean `String` (a wrapper around
  `List Char`).  `str.splitlines` is modelled for the terminators LF, CR
  and CRLF; the exotic Unicode terminators are not exercised by any value
  considered here.
- The `csv` module is modelled on its quote-free fragment: `csv.reader`
  splits a line at the delimiter `,` (and maps the empty line to the
  empty record), `csv.writer.writerow` joins the fields with `,`.
  Quoting behaviour is not exercised by any input considered in this file.
- The content of a file on disk is modelled as `Option (List String)`:
  `none` means the file does not exist, `some ls` is the list of its
  CSV records.
- The Anthropic client is modelled as an oracle: a raised exception is
  `ApiResp.failure`, a successful response carries the list of the text
  fields of its content blocks.
- The prompt templates of `prompts.py` are opaque natural-language text;
  a prompt value is represented by its template together with the values
  substituted into it.
-/

namespace AIDataGen

/-! ## Python primitives used by `agents.py` -/

/-- One step of Python `str.splitlines`.  `acc` holds the characters of the
current (unterminated) line in reverse order. -/
def pySplitlinesAux : List Char → List Char → List String
  | [], acc => if acc.isEmpty then [] else [String.mk acc.reverse]
  | '\r' :: '\n' :: rest, acc => String.mk acc.reverse :: pySplitlinesAux rest []
  | '\r' :: rest, acc => String.mk acc.reverse :: pySplitlinesAux rest []
  | '\n' :: rest, acc => String.mk acc.reverse :: pySplitlinesAux rest []
  | c :: rest, acc => pySplitlinesAux rest (c :: acc)

/-- Python `s.splitlines()`. -/
def pySplitlines (s : String) : List String :=
  pySplitlinesAux s.data []

/-- Python `"\n".join(ls)`. -/
def joinN : List String → String
  | [] => ""
  | [a] => a
  | a :: b :: t => a ++ "\n" ++ joinN (b :: t)

/-- Python `",".join(ls)` (also the serialization performed by
`csv.writer.writerow` on quote-free fields). -/
def joinComma : List String → String
  | [] => ""
  | [a] => a
  | a :: b :: t => a ++ "," ++ joinComma (b :: t)

/-- Split a character list at every `,`; `acc` holds the current field in
reverse order.  The result is always non-empty. -/
def splitCommaAux : List Char → List Char → List (List Char)
  | [], acc => [acc.reverse]
  | ',' :: rest, acc => acc.reverse :: splitCommaAux rest []
  | c :: rest, acc => splitCommaAux rest (c :: acc)

/-- `csv.reader` on a single quote-free line: the empty line parses to the
empty record, otherwise the line is split at the delimiter. -/
def parseRow (s : String) : List String :=
  if s = "" then [] else (splitCommaAux s.data []).map String.mk

/-- A string free of the modelled line terminators. -/
def noNL (s : String) : Prop :=
  ∀ c ∈ s.data, c ≠ '\n' ∧ c ≠ '\r'

/-! ## The embedded program

`agents.py`, from `read_csv_file` onwards.  The on-disk output file is
modelled as `Option (List String)`: `none` when the file does not exist.
-/

/-- Python truthiness of the `headers` argument of `save_to_csv`
(`None` and the empty list are falsy). -/
def headersTruthy : Option (List String) → Bool
  | none => false
  | some h => !h.isEmpty

/-- The rows produced by the `for row in csv.reader(data.splitlines())`
loop of `save_to_csv`: each line of `data` is parsed by `csv.reader` and
re-serialized by `csv.writer.writerow`. -/
def writtenRows (data : String) : List String :=
  (pySplitlines data).map (fun l => joinComma (parseRow l))

/-- `save_to_csv(data, output_file, headers)` of `agents.py`.
If `data` is falsy the write is skipped entirely.  Otherwise the mode is
`w` (create, write the header row first) exactly when `headers` is truthy
and the file does not exist, and `a` (append, creating an empty file if
needed) otherwise. -/
def save_to_csv (data : String) (file : Option (List String))
    (headers : Option (List String)) : Option (List String) :=
  if data = "" then file
  else if headersTruthy headers ∧ file = none then
    some (joinComma (headers.getD []) :: writtenRows data)
  else
    some (file.getD [] ++ writtenRows data)

/-- The header-strip of the batch synthesis loop:
`if headers and generated_data_lines and generated_data_lines[0] == ",".join(headers)`,
then drop the first line. -/
def stripHeader (headers : Option (List String)) (lines : List String) :
    List String :=
  match headers with
  | none => lines
  | some h =>
    if h ≠ [] ∧ lines.head? = some (joinComma h) then lines.tail else lines

/-- `batch_size = 30` of the batch synthesis loop. -/
def batch_size : Int := 30

/-- `rows_to_generate = min(batch_size, desired_rows - generated_rows)`. -/
def rows_to_generate (desired_rows : Int) (generated_rows : ℕ) : Int :=
  min batch_size (desired_rows - (generated_rows : Int))

/-- The stage a model call belongs to. -/
inductive Stage where
  | analysis
  | generation
deriving DecidableEq, Repr

/-- The user instruction of a call, represented by its template and the
values substituted into it. -/
inductive PromptData where
  | analysisPrompt (sample_data : String)
  | genPrompt (analysis_result : String) (sample_data : String) (num_rows : Int)
deriving DecidableEq, Repr

/-- One invocation of `make_api_call`, as observable by the backend:
model id, generation parameters and the instruction contents.
The temperature is carried symbolically as a rational number (no
arithmetic is ever performed on it). -/
structure Call where
  stage : Stage
  model : String
  max_tokens : Int
  temperature : ℚ
  prompt : PromptData
deriving DecidableEq, Repr

/-- The response of the Anthropic client to one call: either a raised
error (`failure`) or a message whose content blocks carry the given
texts. -/
inductive ApiResp where
  | failure
  | success (blocks : List String)
deriving DecidableEq, Repr

/-- `make_api_call` of `agents.py`: returns `message.content[0].text` on
success; any raised error — including the `IndexError` when the content
list is empty — is caught and turned into `None`. -/
def make_api_call : ApiResp → Option String
  | .failure => none
  | .success [] => none
  | .success (t :: _) => some t

/-- The run-constant inputs of the batch synthesis loop. -/
structure Params where
  headers : Option (List String)
  desired_rows : Int
  model : String
  max_tokens : Int
  temperature : ℚ
  analysis_result : String
  sample_data_str : String
deriving DecidableEq, Repr

/-- The generator call issued when `generated_rows` data rows have been
counted: `generator_agent(analysis_result, sample_data_str,
rows_to_generate, model, max_tokens, temperature)`. -/
def generatorCall (p : Params) (generated_rows : ℕ) : Call :=
  { stage := .generation
    model := p.model
    max_tokens := p.max_tokens
    temperature := p.temperature
    prompt := .genPrompt p.analysis_result p.sample_data_str
      (rows_to_generate p.desired_rows generated_rows) }

/-- The single analyzer call:
`analyzer_agent(sample_data_str, model, 400, 0.1)`. -/
def analyzerCall (model : String) (sample_data_str : String) : Call :=
  { stage := .analysis
    model := model
    max_tokens := 400
    temperature := 1/10
    prompt := .analysisPrompt sample_data_str }

/-- The mutable state of the batch synthesis loop.  `calls` counts the
generator calls issued so far (it indexes the backend oracle) and
`trace` records them, most recent first. -/
structure LoopState where
  file : Option (List String)
  generated_rows : ℕ
  calls : ℕ
  trace : List Call
deriving DecidableEq, Repr

/-- One test-and-iterate of the `while generated_rows < desired_rows`
loop.  `g` is the backend oracle: `g k` is the result of `generator_agent`
for the `k`-th generator call of the run.  When the loop condition fails
the state is returned unchanged (the body does not run); when the call
fails (`None`) the body only logs and retries; otherwise the returned
text is split into lines, header-stripped, flushed via `save_to_csv` and
counted. -/
def loopStep (p : Params) (g : ℕ → Option String) (s : LoopState) :
    LoopState :=
  if (s.generated_rows : Int) < p.desired_rows then
    let s1 : LoopState :=
      { s with calls := s.calls + 1,
               trace := generatorCall p s.generated_rows :: s.trace }
    match g s.calls with
    | none => s1
    | some text =>
      let generated_data_lines := stripHeader p.headers (pySplitlines text)
      { s1 with
          file := save_to_csv (joinN generated_data_lines) s1.file none,
          generated_rows := s1.generated_rows + generated_data_lines.length }
  else s

/-- `n` test-and-iterates of the batch synthesis loop. -/
def loopRun (p : Params) (g : ℕ → Option String) : ℕ → LoopState → LoopState
  | 0, s => s
  | n + 1, s => loopStep p g (loopRun p g n s)

/-- The observable outcome of one run of the main flow of `agents.py`. -/
structure RunResult where
  readFailed : Bool
  analysisFailed : Bool
  file : Option (List String)
  generated_rows : ℕ
  trace : List Call
deriving DecidableEq, Repr

/-- `",".join(headers) if headers else ""` — the `data` argument of the
initialization write. -/
def headerData : Option (List String) → String
  | none => ""
  | some h => if h.isEmpty then "" else joinComma h

/-- The main flow of `agents.py` from line 217 on: read result, analyzer
agent, output-file setup, batch synthesis loop.  `sample_data?` is the
result of `read_csv_file`, `file0` the output file at run start,
`oracle k` the backend response to the `k`-th call of the run (call 0 is
the analysis call), and `fuel` bounds the number of loop iterations that
are modelled. -/
def pipeline (sample_data? : Option (List (List String))) (desired_rows : Int)
    (model : String) (max_tokens : Int) (temperature : ℚ)
    (file0 : Option (List String)) (oracle : ℕ → ApiResp) (fuel : ℕ) :
    RunResult :=
  match sample_data? with
  | none => ⟨true, false, file0, 0, []⟩
  | some sample_data =>
    let sample_data_str := joinN (sample_data.map joinComma)
    let aCall := analyzerCall model sample_data_str
    match make_api_call (oracle 0) with
    | none => ⟨false, true, file0, 0, [aCall]⟩
    | some analysis_result =>
      let headers := sample_data.head?
      let file1 :=
        if file0 = none then save_to_csv (headerData headers) file0 headers
        else file0
      let p : Params :=
        ⟨headers, desired_rows, model, max_tokens, temperature,
          analysis_result, sample_data_str⟩
      let g : ℕ → Option String := fun k => make_api_call (oracle (k + 1))
      let sF := loopRun p g fuel ⟨file1, 0, 0, []⟩
      ⟨false, false, sF.file, sF.generated_rows, sF.trace ++ [aCall]⟩

/-- Number of records of the modelled file (`0` when it does not exist). -/
def fileLen (file : Option (List String)) : ℕ :=
  (file.getD []).length

/-- The lines that a loop-iteration `save_to_csv` call actually appends
to the store for a given `data` string. -/
def flushedLines (data : String) : List String :=
  if data = "" then [] else writtenRows data

/-- A backend response that lets the loop make progress: the call
succeeded and contributes at least one post-strip line. -/
def goodResp (p : Params) : Option String → Bool
  | none => false
  | some t => !(stripHeader p.headers (pySplitlines t)).isEmpty

/-- A concrete parameter record used by witness instances (header-less
sample). -/
def pEx : Params := ⟨none, 5, "m", 1500, 7/10, "A", "s"⟩

/-- A concrete parameter record used by witness instances (two-column
header, two desired rows). -/
def pExH : Params := ⟨some ["id", "value"], 2, "m", 1500, 7/10, "A", "id,value"⟩

/-- A concrete starting loop state used by witness instances. -/
def sEx : LoopState := ⟨some [], 0, 0, []⟩

/-! ## Lemmas about the Python primitives -/

theorem String_mk_data (s : String) : String.mk s.data = s := by
  cases s; rfl

theorem String_eq_of_data (a b : String) (h : a.data = b.data) : a = b := by
  rw [← String_mk_data a, ← String_mk_data b, h]

theorem joinComma_cons_of_ne_nil (a : String) (l : List String) (h : l ≠ []) :
    joinComma (a :: l) = a ++ "," ++ joinComma l := by
  cases l with
  | nil => exact absurd rfl h
  | cons b t => rfl

theorem splitCommaAux_ne_nil (cs : List Char) (acc : List Char) :
    splitCommaAux cs acc ≠ [] := by
  induction cs generalizing acc with
  | nil => simp [splitCommaAux]
  | cons c rest ih =>
    by_cases hc : c = ','
    · subst hc; simp [splitCommaAux]
    · simp only [splitCommaAux, hc]
      exact ih (c :: acc)

theorem joinComma_splitCommaAux (cs : List Char) :
    ∀ acc, joinComma ((splitCommaAux cs acc).map String.mk) =
      String.mk (acc.reverse ++ cs) := by
  induction cs with
  | nil =>
    intro acc
    simp [splitCommaAux, joinComma]
  | cons c rest ih =>
    intro acc
    by_cases hc : c = ','
    · subst hc
      have hne : (splitCommaAux rest []).map String.mk ≠ [] := by
        simp [splitCommaAux_ne_nil rest []]
      simp only [splitCommaAux, List.map_cons]
      rw [joinComma_cons_of_ne_nil _ _ hne]
      rw [ih []]
      apply String_eq_of_data
      simp
    · simp only [splitCommaAux, hc]
      rw [ih (c :: acc)]
      apply congrArg
      simp

/-- The quote-free CSV round trip is the identity on a line. -/
theorem parse_serialize_id (s : String) : joinComma (parseRow s) = s := by
  unfold parseRow
  by_cases h : s = ""
  · simp [h, joinComma]
  · rw [if_neg h, joinComma_splitCommaAux]
    simp [String_mk_data]

theorem String_data_append (a b : String) : (a ++ b).data = a.data ++ b.data :=
  rfl

theorem pySplitlinesAux_catchall (c : Char) (rest acc : List Char)
    (h1 : c ≠ '\n') (h2 : c ≠ '\r') :
    pySplitlinesAux (c :: rest) acc = pySplitlinesAux rest (c :: acc) :=
  pySplitlinesAux.eq_5 acc c rest (fun _ hc _ => h2 hc) (fun hc => h2 hc)
    (fun hc => h1 hc)

theorem pySplitlinesAux_nonl (cs : List Char) :
    ∀ acc, (∀ c ∈ cs, c ≠ '\n' ∧ c ≠ '\r') →
      pySplitlinesAux cs acc =
        if cs.isEmpty ∧ acc.isEmpty then []
        else [String.mk (acc.reverse ++ cs)] := by
  induction cs with
  | nil =>
    intro acc _
    by_cases h : acc.isEmpty <;> simp [pySplitlinesAux, h]
  | cons c rest ih =>
    intro acc h
    have hc := h c (by simp)
    have hrest : ∀ x ∈ rest, x ≠ '\n' ∧ x ≠ '\r' := fun x hx => h x (by simp [hx])
    rw [pySplitlinesAux_catchall c rest acc hc.1 hc.2]
    rw [ih (c :: acc) hrest]
    simp

theorem pySplitlinesAux_append (xs : List Char) :
    ∀ acc ys, (∀ c ∈ xs, c ≠ '\n' ∧ c ≠ '\r') →
      pySplitlinesAux (xs ++ '\n' :: ys) acc =
        String.mk (acc.reverse ++ xs) :: pySplitlinesAux ys [] := by
  induction xs with
  | nil =>
    intro acc ys _
    rw [List.nil_append, pySplitlinesAux.eq_4]
    simp
  | cons c rest ih =>
    intro acc ys h
    have hc := h c (by simp)
    have hrest : ∀ x ∈ rest, x ≠ '\n' ∧ x ≠ '\r' := fun x hx => h x (by simp [hx])
    rw [List.cons_append, pySplitlinesAux_catchall c _ acc hc.1 hc.2]
    rw [ih (c :: acc) ys hrest]
    simp

theorem noNL_empty : noNL "" := by
  intro c hc
  simp [String.data] at hc

theorem String_eq_empty_iff_data (s : String) : s = "" ↔ s.data = [] := by
  constructor
  · intro h; rw [h]
  · intro h; exact String_eq_of_data _ _ (by rw [h])

theorem pySplitlines_nonl (s : String) (h : noNL s) :
    pySplitlines s = if s = "" then [] else [s] := by
  unfold pySplitlines
  rw [pySplitlinesAux_nonl s.data [] h]
  by_cases hs : s = ""
  · simp [hs]
  · rw [if_neg hs]
    have hdata : ¬(s.data.isEmpty ∧ ([] : List Char).isEmpty) := by
      intro hcon
      exact hs ((String_eq_empty_iff_data s).mpr (List.isEmpty_iff.mp hcon.1))
    rw [if_neg hdata, List.reverse_nil, List.nil_append, String_mk_data]

theorem joinN_cons_cons (a b : String) (t : List String) :
    joinN (a :: b :: t) = a ++ "\n" ++ joinN (b :: t) := rfl

theorem pySplitlines_joinN (ls : List String) (h : ∀ l ∈ ls, noNL l) :
    pySplitlines (joinN ls) =
      if ls.getLast? = some "" then ls.dropLast else ls := by
  induction ls with
  | nil => simp [joinN, pySplitlines, pySplitlinesAux]
  | cons a t ih =>
    cases t with
    | nil =>
      have ha : noNL a := h a (by simp)
      rw [show joinN [a] = a from rfl, pySplitlines_nonl a ha]
      by_cases hae : a = ""
      · simp [hae]
      · simp [hae, Option.some_inj]
    | cons b t2 =>
      have ha : noNL a := h a (by simp)
      have hrest : ∀ l ∈ b :: t2, noNL l := fun l hl => h l (by simp [hl])
      have hdata : (joinN (a :: b :: t2)).data
          = a.data ++ '\n' :: (joinN (b :: t2)).data := by
        rw [joinN_cons_cons, String_data_append, String_data_append,
          List.append_assoc]
        rfl
      unfold pySplitlines
      rw [hdata, pySplitlinesAux_append a.data [] (joinN (b :: t2)).data ha]
      rw [show pySplitlinesAux (joinN (b :: t2)).data [] = pySplitlines (joinN (b :: t2)) from rfl]
      rw [ih hrest]
      rw [List.getLast?_cons_cons]
      by_cases hl : (b :: t2).getLast? = some ""
      · simp only [hl, if_pos rfl, List.dropLast_cons₂]
        simp [String_mk_data]
      · simp only [hl, if_neg hl]
        simp [String_mk_data]

theorem noNL_mk_reverse (acc : List Char)
    (hacc : ∀ c ∈ acc, c ≠ '\n' ∧ c ≠ '\r') : noNL (String.mk acc.reverse) := by
  intro c hc
  exact hacc c (by simpa using hc)

theorem noNL_of_mem_pySplitlinesAux (cs acc : List Char) :
    (∀ c ∈ acc, c ≠ '\n' ∧ c ≠ '\r') →
      ∀ l ∈ pySplitlinesAux cs acc, noNL l := by
  induction cs, acc using pySplitlinesAux.induct with
  | case1 acc hemp =>
    intro hacc l hl
    rw [pySplitlinesAux.eq_1, if_pos hemp] at hl
    simp at hl
  | case2 acc hemp =>
    intro hacc l hl
    rw [pySplitlinesAux.eq_1, if_neg hemp] at hl
    simp only [List.mem_singleton] at hl
    subst hl
    exact noNL_mk_reverse acc hacc
  | case3 rest acc ih =>
    intro hacc l hl
    rw [pySplitlinesAux.eq_2] at hl
    rcases List.mem_cons.mp hl with hl | hl
    · subst hl; exact noNL_mk_reverse acc hacc
    · exact ih (by simp) l hl
  | case4 rest acc hcond ih =>
    intro hacc l hl
    rw [pySplitlinesAux.eq_3 acc rest hcond] at hl
    rcases List.mem_cons.mp hl with hl | hl
    · subst hl; exact noNL_mk_reverse acc hacc
    · exact ih (by simp) l hl
  | case5 rest acc ih =>
    intro hacc l hl
    rw [pySplitlinesAux.eq_4] at hl
    rcases List.mem_cons.mp hl with hl | hl
    · subst hl; exact noNL_mk_reverse acc hacc
    · exact ih (by simp) l hl
  | case6 c rest acc hcond h1 h2 ih =>
    intro hacc l hl
    rw [pySplitlinesAux_catchall c rest acc (fun hc => h2 hc) (fun hc => h1 hc)] at hl
    refine ih ?_ l hl
    intro x hx
    rcases List.mem_cons.mp hx with hx | hx
    · subst hx; exact ⟨fun hc => h2 hc, fun hc => h1 hc⟩
    · exact hacc x hx

theorem noNL_of_mem_pySplitlines (s : String) (l : String)
    (hl : l ∈ pySplitlines s) : noNL l :=
  noNL_of_mem_pySplitlinesAux s.data [] (by simp) l hl

/-! ## Lemmas about the embedded program -/

theorem save_to_csv_none_headers (d : String) (f : Option (List String)) :
    save_to_csv d f none =
      if d = "" then f else some (f.getD [] ++ writtenRows d) := by
  unfold save_to_csv
  by_cases hd : d = ""
  · simp [hd]
  · simp [hd, headersTruthy]

theorem fileLen_save_to_csv (d : String) (f : Option (List String)) :
    fileLen (save_to_csv d f none) = fileLen f + (flushedLines d).length := by
  rw [save_to_csv_none_headers]
  by_cases hd : d = ""
  · simp [hd, flushedLines]
  · simp [hd, flushedLines, fileLen]

theorem stripHeader_subset (h : Option (List String)) (ls : List String) :
    stripHeader h ls ⊆ ls := by
  cases h with
  | none => simp [stripHeader]
  | some hh =>
    simp only [stripHeader]
    split
    · exact List.tail_subset ls
    · exact fun x hx => hx

theorem noNL_strip_split (h : Option (List String)) (text : String) :
    ∀ l ∈ stripHeader h (pySplitlines text), noNL l :=
  fun l hl => noNL_of_mem_pySplitlines text l (stripHeader_subset h _ hl)

theorem map_roundtrip (xs : List String) :
    xs.map (fun l => joinComma (parseRow l)) = xs := by
  induction xs with
  | nil => rfl
  | cons a t ih => simp [parse_serialize_id, ih]

theorem flushedLines_joinN (ls : List String) (h : ∀ l ∈ ls, noNL l) :
    flushedLines (joinN ls) =
      if ls.getLast? = some "" then ls.dropLast else ls := by
  unfold flushedLines
  by_cases hj : joinN ls = ""
  · rw [if_pos hj]
    cases ls with
    | nil => simp
    | cons a t =>
      cases t with
      | nil =>
        have ha : a = "" := hj
        subst ha
        simp
      | cons b t2 =>
        exfalso
        have hd := congrArg String.data hj
        rw [joinN_cons_cons, String_data_append, String_data_append,
          List.append_assoc,
          show ("\n" : String).data = ['\n'] from rfl] at hd
        simp at hd
  · rw [if_neg hj]
    unfold writtenRows
    rw [pySplitlines_joinN ls h]
    split
    · exact map_roundtrip _
    · exact map_roundtrip _

theorem flushedLines_le_length (ls : List String) (h : ∀ l ∈ ls, noNL l) :
    (flushedLines (joinN ls)).length ≤ ls.length := by
  rw [flushedLines_joinN ls h]
  split
  · rw [List.length_dropLast]; omega
  · exact le_refl _

theorem loopStep_inactive (p : Params) (g : ℕ → Option String) (s : LoopState)
    (h : ¬((s.generated_rows : Int) < p.desired_rows)) :
    loopStep p g s = s := by
  unfold loopStep
  rw [if_neg h]

theorem loopStep_none (p : Params) (g : ℕ → Option String) (s : LoopState)
    (hact : (s.generated_rows : Int) < p.desired_rows)
    (hg : g s.calls = none) :
    loopStep p g s =
      ⟨s.file, s.generated_rows, s.calls + 1,
        generatorCall p s.generated_rows :: s.trace⟩ := by
  unfold loopStep
  rw [if_pos hact, hg]

theorem loopStep_some (p : Params) (g : ℕ → Option String) (s : LoopState)
    (text : String)
    (hact : (s.generated_rows : Int) < p.desired_rows)
    (hg : g s.calls = some text) :
    loopStep p g s =
      ⟨save_to_csv (joinN (stripHeader p.headers (pySplitlines text))) s.file
          none,
        s.generated_rows + (stripHeader p.headers (pySplitlines text)).length,
        s.calls + 1,
        generatorCall p s.generated_rows :: s.trace⟩ := by
  unfold loopStep
  rw [if_pos hact, hg]

theorem loopStep_gen_le (p : Params) (g : ℕ → Option String) (s : LoopState) :
    s.generated_rows ≤ (loopStep p g s).generated_rows := by
  by_cases hact : (s.generated_rows : Int) < p.desired_rows
  · cases hg : g s.calls with
    | none => rw [loopStep_none p g s hact hg]
    | some text =>
      rw [loopStep_some p g s text hact hg]
      exact Nat.le_add_right _ _
  · rw [loopStep_inactive p g s hact]

theorem loopRun_gen_le (p : Params) (g : ℕ → Option String) (n : ℕ)
    (s : LoopState) :
    s.generated_rows ≤ (loopRun p g n s).generated_rows := by
  induction n with
  | zero => exact le_refl _
  | succ n ih => exact le_trans ih (loopStep_gen_le p g _)

theorem loopRun_gen_mono (p : Params) (g : ℕ → Option String) (s : LoopState)
    {n m : ℕ} (h : n ≤ m) :
    (loopRun p g n s).generated_rows ≤ (loopRun p g m s).generated_rows := by
  induction m with
  | zero =>
    have : n = 0 := Nat.le_zero.mp h
    subst this
    exact le_refl _
  | succ m ih =>
    by_cases hnm : n = m + 1
    · subst hnm; exact le_refl _
    · have hle : n ≤ m := by omega
      exact le_trans (ih hle) (loopStep_gen_le p g _)

theorem loopRun_inactive (p : Params) (g : ℕ → Option String) (s : LoopState)
    (h : ¬((s.generated_rows : Int) < p.desired_rows)) :
    ∀ n, loopRun p g n s = s := by
  intro n
  induction n with
  | zero => rfl
  | succ n ih =>
    show loopStep p g (loopRun p g n s) = s
    rw [ih, loopStep_inactive p g s h]

theorem loopStep_calls (p : Params) (g : ℕ → Option String) (s : LoopState)
    (hact : (s.generated_rows : Int) < p.desired_rows) :
    (loopStep p g s).calls = s.calls + 1 := by
  cases hg : g s.calls with
  | none => rw [loopStep_none p g s hact hg]
  | some text => rw [loopStep_some p g s text hact hg]

theorem loopStep_good (p : Params) (g : ℕ → Option String) (s : LoopState)
    (hact : (s.generated_rows : Int) < p.desired_rows)
    (hgood : goodResp p (g s.calls) = true) :
    s.generated_rows + 1 ≤ (loopStep p g s).generated_rows := by
  cases hg : g s.calls with
  | none => rw [hg] at hgood; simp [goodResp] at hgood
  | some text =>
    have hlen : 0 < (stripHeader p.headers (pySplitlines text)).length := by
      cases hq : stripHeader p.headers (pySplitlines text) with
      | nil =>
        exfalso
        rw [hg] at hgood
        have hfalse : goodResp p (some text) = false := by
          show (!(stripHeader p.headers (pySplitlines text)).isEmpty) = false
          rw [hq]
          rfl
        rw [hfalse] at hgood
        exact Bool.false_ne_true hgood
      | cons x xs => simp
    rw [loopStep_some p g s text hact hg]
    show s.generated_rows + 1 ≤
      s.generated_rows + (stripHeader p.headers (pySplitlines text)).length
    omega

/-! ## The claims -/

/-- Claim C1 (code bug): the claim says the header row is written exactly
once at initialization when the output file did not exist.  Evaluating
the embedded program on a sample with header `["id","value"]` and no
pre-existing output file shows that the initialization write emits the
header line twice: `save_to_csv` writes the `headers` row and then also
parses and appends the `data` argument, which is that same serialized
header. -/
theorem c1_init_writes_header_twice :
    (pipeline (some [["id", "value"]]) 0 "m" 1500 (7/10) none
        (fun _ => ApiResp.success ["A"]) 0).file
      = some ["id,value", "id,value"]
    ∧ (((pipeline (some [["id", "value"]]) 0 "m" 1500 (7/10) none
        (fun _ => ApiResp.success ["A"]) 0).file).getD []).count "id,value"
      = 2 := by
  decide

/-- Claim C2 (counterexample): when the backend returns the text `"\n"`,
the single post-strip line `""` is counted (`generated_rows` goes from 0
to 1) even though `save_to_csv` flushes nothing — the joined data string
is empty, the write is skipped and the store is unchanged — refuting that
the counter is incremented only by lines actually flushed. -/
theorem c2_counterexample :
    (loopStep pEx (fun _ => some "\n") ⟨some ["h"], 0, 0, []⟩).generated_rows
      = 1
    ∧ (loopStep pEx (fun _ => some "\n") ⟨some ["h"], 0, 0, []⟩).file
      = some ["h"]
    ∧ flushedLines (joinN (stripHeader pEx.headers (pySplitlines "\n"))) = []
    := by
  decide

/-- Claim C2 (amended): on a successful batch the counter is incremented
by the number of post-strip lines; the store gains exactly the flushed
lines, whose count never exceeds that increment (it falls short exactly
when the post-strip line list ends in an empty line); and the counter is
monotonically non-decreasing across the run. -/
theorem c2_rows_counted_vs_flushed (p : Params) (g : ℕ → Option String)
    (s : LoopState) (text : String)
    (hact : (s.generated_rows : Int) < p.desired_rows)
    (hg : g s.calls = some text) :
    (loopStep p g s).generated_rows
      = s.generated_rows + (stripHeader p.headers (pySplitlines text)).length
    ∧ fileLen (loopStep p g s).file
      = fileLen s.file
        + (flushedLines (joinN (stripHeader p.headers (pySplitlines text)))).length
    ∧ (flushedLines (joinN (stripHeader p.headers (pySplitlines text)))).length
      ≤ (stripHeader p.headers (pySplitlines text)).length
    ∧ ∀ n, s.generated_rows ≤ (loopRun p g n s).generated_rows := by
  rw [loopStep_some p g s text hact hg]
  refine ⟨rfl, ?_, ?_, fun n => loopRun_gen_le p g n s⟩
  · exact fileLen_save_to_csv _ s.file
  · exact flushedLines_le_length _ (noNL_strip_split p.headers text)

/-- Witness for the amended C2 at a concrete input. -/
theorem c2_rows_counted_vs_flushed_witness :
    (loopStep pEx (fun _ => some "a,b") sEx).generated_rows
      = sEx.generated_rows + (stripHeader pEx.headers (pySplitlines "a,b")).length
    ∧ fileLen (loopStep pEx (fun _ => some "a,b") sEx).file
      = fileLen sEx.file
        + (flushedLines (joinN (stripHeader pEx.headers (pySplitlines "a,b")))).length
    ∧ (flushedLines (joinN (stripHeader pEx.headers (pySplitlines "a,b")))).length
      ≤ (stripHeader pEx.headers (pySplitlines "a,b")).length
    ∧ sEx.generated_rows
      ≤ (loopRun pEx (fun _ => some "a,b") 3 sEx).generated_rows := by
  have h := c2_rows_counted_vs_flushed pEx (fun _ => some "a,b") sEx "a,b"
    (by decide) rfl
  exact ⟨h.1, h.2.1, h.2.2.1, h.2.2.2 3⟩

/-- Claim C4: at every synthesis iteration (loop condition true), the
issued generator call requests `min(batch_size, desired_rows -
generated_rows)` rows, `batch_size` is 30, and the requested count never
exceeds the remaining `desired_rows - generated_rows`. -/
theorem c4_requested_rows_min (p : Params) (g : ℕ → Option String)
    (s : LoopState)
    (hact : (s.generated_rows : Int) < p.desired_rows) :
    (loopStep p g s).trace.head? = some (generatorCall p s.generated_rows)
    ∧ (generatorCall p s.generated_rows).prompt
      = PromptData.genPrompt p.analysis_result p.sample_data_str
          (min batch_size (p.desired_rows - (s.generated_rows : Int)))
    ∧ batch_size = 30
    ∧ rows_to_generate p.desired_rows s.generated_rows
      ≤ p.desired_rows - (s.generated_rows : Int) := by
  refine ⟨?_, rfl, rfl, min_le_right _ _⟩
  cases hg : g s.calls with
  | none => rw [loopStep_none p g s hact hg]; rfl
  | some text => rw [loopStep_some p g s text hact hg]; rfl

/-- Witness for C4 at a concrete input. -/
theorem c4_requested_rows_min_witness :
    (loopStep pEx (fun _ => none) sEx).trace.head?
      = some (generatorCall pEx sEx.generated_rows)
    ∧ (generatorCall pEx sEx.generated_rows).prompt
      = PromptData.genPrompt pEx.analysis_result pEx.sample_data_str
          (min batch_size (pEx.desired_rows - (sEx.generated_rows : Int)))
    ∧ batch_size = 30
    ∧ rows_to_generate pEx.desired_rows sEx.generated_rows
      ≤ pEx.desired_rows - (sEx.generated_rows : Int) :=
  c4_requested_rows_min pEx (fun _ => none) sEx (by decide)

/-- Claim C5 (counterexample): a two-line batch `"a,b\n\n"` whose first
line is not the serialized header loses a line on its way to the store —
the trailing empty line is dropped by the join/split of the flush — so a
batch whose first line is a data row is not always appended with no lines
removed. -/
theorem c5_counterexample :
    stripHeader (some ["id", "value"]) (pySplitlines "a,b\n\n")
      = ["a,b", ""]
    ∧ (pySplitlines "a,b\n\n").head? ≠ some (joinComma ["id", "value"])
    ∧ flushedLines
        (joinN (stripHeader (some ["id", "value"]) (pySplitlines "a,b\n\n")))
      = ["a,b"] := by
  decide

/-- Claim C5 (amended): if the header is non-empty and the first returned
line is byte-identical to the serialized header then exactly that one
line is dropped by the strip (never more); otherwise the strip removes
nothing.  The subsequent flush appends the stripped lines except that one
trailing empty line, if present, is lost (and nothing is written when the
stripped batch is empty). -/
theorem c5_strip_exactly_once (hd : List String) (text : String)
    (hne : hd ≠ []) :
    ((pySplitlines text).head? = some (joinComma hd) →
      stripHeader (some hd) (pySplitlines text) = (pySplitlines text).tail)
    ∧ ((pySplitlines text).head? ≠ some (joinComma hd) →
      stripHeader (some hd) (pySplitlines text) = pySplitlines text)
    ∧ flushedLines (joinN (stripHeader (some hd) (pySplitlines text)))
      = (if (stripHeader (some hd) (pySplitlines text)).getLast? = some ""
         then (stripHeader (some hd) (pySplitlines text)).dropLast
         else stripHeader (some hd) (pySplitlines text)) := by
  refine ⟨?_, ?_, ?_⟩
  · intro hhead
    show (if hd ≠ [] ∧ (pySplitlines text).head? = some (joinComma hd)
      then (pySplitlines text).tail else pySplitlines text) = _
    rw [if_pos ⟨hne, hhead⟩]
  · intro hhead
    show (if hd ≠ [] ∧ (pySplitlines text).head? = some (joinComma hd)
      then (pySplitlines text).tail else pySplitlines text) = _
    rw [if_neg (fun hcon => hhead hcon.2)]
  · exact flushedLines_joinN _ (noNL_strip_split (some hd) text)

/-- Witness for the amended C5 at a concrete input: a batch starting with
the serialized header is stripped exactly once and then flushed whole. -/
theorem c5_strip_exactly_once_witness :
    stripHeader (some ["h"]) (pySplitlines "h\nx") = (pySplitlines "h\nx").tail
    ∧ flushedLines (joinN (stripHeader (some ["h"]) (pySplitlines "h\nx")))
      = stripHeader (some ["h"]) (pySplitlines "h\nx") := by
  have h := c5_strip_exactly_once ["h"] "h\nx" (by decide)
  refine ⟨h.1 (by decide), ?_⟩
  rw [h.2.2]
  decide

/-- Claim C6: when every generator call fails, any number of retries
leaves `generated_rows` and the Output Store unchanged, the retried call
is identical to the failed one, and the remaining-row computation is
unchanged. -/
theorem c6_failed_batch_retried (p : Params) (g : ℕ → Option String)
    (s : LoopState) (n : ℕ)
    (hact : (s.generated_rows : Int) < p.desired_rows)
    (hfail : ∀ k, g k = none) :
    (loopRun p g n s).generated_rows = s.generated_rows
    ∧ (loopRun p g n s).file = s.file
    ∧ (loopRun p g (n + 1) s).trace
      = generatorCall p s.generated_rows :: (loopRun p g n s).trace
    ∧ rows_to_generate p.desired_rows (loopRun p g n s).generated_rows
      = rows_to_generate p.desired_rows s.generated_rows := by
  have key : ∀ m, (loopRun p g m s).generated_rows = s.generated_rows
      ∧ (loopRun p g m s).file = s.file := by
    intro m
    induction m with
    | zero => exact ⟨rfl, rfl⟩
    | succ m ih =>
      have hact' : ((loopRun p g m s).generated_rows : Int) < p.desired_rows := by
        rw [ih.1]; exact hact
      show (loopStep p g (loopRun p g m s)).generated_rows = s.generated_rows
        ∧ (loopStep p g (loopRun p g m s)).file = s.file
      rw [loopStep_none p g _ hact' (hfail _)]
      exact ⟨ih.1, ih.2⟩
  have hact' : ((loopRun p g n s).generated_rows : Int) < p.desired_rows := by
    rw [(key n).1]; exact hact
  refine ⟨(key n).1, (key n).2, ?_, by rw [(key n).1]⟩
  show (loopStep p g (loopRun p g n s)).trace = _
  rw [loopStep_none p g _ hact' (hfail _), (key n).1]

/-- Claim C3 (counterexample): a successful response whose single content
block is the empty string refutes the claim that empty content is fatal:
the run does not stop at the analysis stage, a synthesis call is
attempted (the trace holds two calls) and the Output Store is created. -/
theorem c3_counterexample :
    make_api_call (ApiResp.success [""]) = some ""
    ∧ (pipeline (some [["id", "value"]]) 1 "m" 1500 (7/10) none
        (fun k => if k = 0 then ApiResp.success [""]
          else ApiResp.success ["a,b"]) 1).analysisFailed = false
    ∧ (pipeline (some [["id", "value"]]) 1 "m" 1500 (7/10) none
        (fun k => if k = 0 then ApiResp.success [""]
          else ApiResp.success ["a,b"]) 1).trace.length = 2
    ∧ (pipeline (some [["id", "value"]]) 1 "m" 1500 (7/10) none
        (fun k => if k = 0 then ApiResp.success [""]
          else ApiResp.success ["a,b"]) 1).file ≠ none := by
  decide

/-- Claim C3 (amended): the analysis stage is fatal exactly when
`make_api_call` returns `None` — the client raised an error, including
the `IndexError` raised on an empty content-block list; in that case the
run stops before any synthesis call and the Output Store keeps its
initial state (never created when it did not exist).  A response whose
first content block carries the empty string is treated as success. -/
theorem c3_analysis_fatal_iff_none (sample_data : List (List String))
    (desired_rows : Int) (model : String) (max_tokens : Int)
    (temperature : ℚ) (file0 : Option (List String)) (oracle : ℕ → ApiResp)
    (fuel : ℕ) :
    ((pipeline (some sample_data) desired_rows model max_tokens temperature
        file0 oracle fuel).analysisFailed = true
      ↔ make_api_call (oracle 0) = none)
    ∧ (make_api_call (oracle 0) = none →
        (pipeline (some sample_data) desired_rows model max_tokens
            temperature file0 oracle fuel).file = file0
        ∧ (pipeline (some sample_data) desired_rows model max_tokens
            temperature file0 oracle fuel).trace
          = [analyzerCall model (joinN (sample_data.map joinComma))]) := by
  cases hres : make_api_call (oracle 0) with
  | none =>
    have hpipe : pipeline (some sample_data) desired_rows model max_tokens
        temperature file0 oracle fuel
        = ⟨false, true, file0, 0,
            [analyzerCall model (joinN (sample_data.map joinComma))]⟩ := by
      unfold pipeline
      rw [hres]
    rw [hpipe]
    exact ⟨⟨fun _ => rfl, fun _ => rfl⟩, fun _ => ⟨rfl, rfl⟩⟩
  | some t =>
    have hpipe : (pipeline (some sample_data) desired_rows model max_tokens
        temperature file0 oracle fuel).analysisFailed = false := by
      unfold pipeline
      rw [hres]
    refine ⟨⟨fun hcontra => ?_, fun hcontra => ?_⟩, fun hcontra => ?_⟩
    · rw [hpipe] at hcontra
      exact absurd hcontra (by simp)
    · exact absurd hcontra (by simp)
    · exact absurd hcontra (by simp)

/-- Witness for the amended C3 at a concrete input: a failing analysis
call stops the run with no synthesis call and no file. -/
theorem c3_analysis_fatal_iff_none_witness :
    ((pipeline (some [["id", "value"]]) 1 "m" 1500 (7/10) none
        (fun _ => ApiResp.failure) 1).analysisFailed = true
      ↔ make_api_call ((fun _ => ApiResp.failure) 0) = none)
    ∧ (make_api_call ((fun _ => ApiResp.failure) 0) = none →
        (pipeline (some [["id", "value"]]) 1 "m" 1500 (7/10) none
            (fun _ => ApiResp.failure) 1).file = none
        ∧ (pipeline (some [["id", "value"]]) 1 "m" 1500 (7/10) none
            (fun _ => ApiResp.failure) 1).trace
          = [analyzerCall "m" (joinN ([["id", "value"]].map joinComma))]) :=
  c3_analysis_fatal_iff_none [["id", "value"]] 1 "m" 1500 (7/10) none
    (fun _ => ApiResp.failure) 1

/-- Claim C8 (counterexample): with 100 rows desired and none generated,
30 rows are requested; a batch of 31 post-strip lines is more than
requested, yet after the iteration `generated_rows = 31` has not advanced
past `desired_rows = 100` — refuting the claim for non-final
iterations. -/
theorem c8_counterexample :
    rows_to_generate 100 0 = 30
    ∧ 30 < (stripHeader none
        (pySplitlines (joinN (List.replicate 31 "x")))).length
    ∧ (loopStep ⟨none, 100, "m", 1500, 7/10, "A", "s"⟩
        (fun _ => some (joinN (List.replicate 31 "x")))
        ⟨none, 0, 0, []⟩).generated_rows = 31
    ∧ ¬((100 : Int) < ((loopStep ⟨none, 100, "m", 1500, 7/10, "A", "s"⟩
        (fun _ => some (joinN (List.replicate 31 "x")))
        ⟨none, 0, 0, []⟩).generated_rows : Int)) := by
  decide

/-- Claim C8 (amended): on an iteration with at most `batch_size` rows
remaining, if the backend returns more post-strip lines than remain, all
of them are counted and `generated_rows` strictly exceeds `desired_rows`
at the end of that iteration; the store gains exactly the flushed lines,
which are all of those lines except that one trailing empty line, if
present, is lost in the flush; every later test of the loop condition
leaves the state unchanged, so the run ends overshooting `desired_rows`,
not clamped. -/
theorem c8_overshoot (p : Params) (g : ℕ → Option String) (s : LoopState)
    (text : String)
    (hact : (s.generated_rows : Int) < p.desired_rows)
    (_htail : p.desired_rows - (s.generated_rows : Int) ≤ batch_size)
    (hover : p.desired_rows - (s.generated_rows : Int)
      < ((stripHeader p.headers (pySplitlines text)).length : Int))
    (hg : g s.calls = some text) :
    (loopStep p g s).generated_rows
      = s.generated_rows + (stripHeader p.headers (pySplitlines text)).length
    ∧ p.desired_rows < ((loopStep p g s).generated_rows : Int)
    ∧ fileLen (loopStep p g s).file
      = fileLen s.file
        + (flushedLines
            (joinN (stripHeader p.headers (pySplitlines text)))).length
    ∧ flushedLines (joinN (stripHeader p.headers (pySplitlines text)))
      = (if (stripHeader p.headers (pySplitlines text)).getLast? = some ""
         then (stripHeader p.headers (pySplitlines text)).dropLast
         else stripHeader p.headers (pySplitlines text))
    ∧ ∀ n, loopRun p g n (loopStep p g s) = loopStep p g s := by
  have hstep := loopStep_some p g s text hact hg
  have hgen : (loopStep p g s).generated_rows
      = s.generated_rows + (stripHeader p.headers (pySplitlines text)).length := by
    rw [hstep]
  refine ⟨hgen, ?_, ?_, ?_, ?_⟩
  · rw [hgen]
    push_cast
    omega
  · rw [hstep]
    show fileLen (save_to_csv
      (joinN (stripHeader p.headers (pySplitlines text))) s.file none) = _
    rw [fileLen_save_to_csv]
  · exact flushedLines_joinN _ (noNL_strip_split p.headers text)
  · intro n
    apply loopRun_inactive
    rw [hgen]
    push_cast
    omega

/-- Witness for the amended C8 at a concrete input: two rows remain, the
backend returns three lines, the run ends with three rows counted. -/
theorem c8_overshoot_witness :
    (loopStep pExH (fun _ => some "a\nb\nc") sEx).generated_rows
      = sEx.generated_rows
        + (stripHeader pExH.headers (pySplitlines "a\nb\nc")).length
    ∧ pExH.desired_rows
      < (((loopStep pExH (fun _ => some "a\nb\nc") sEx).generated_rows : ℕ) : Int)
    ∧ fileLen (loopStep pExH (fun _ => some "a\nb\nc") sEx).file
      = fileLen sEx.file
        + (flushedLines
            (joinN (stripHeader pExH.headers (pySplitlines "a\nb\nc")))).length
    ∧ flushedLines (joinN (stripHeader pExH.headers (pySplitlines "a\nb\nc")))
      = (if (stripHeader pExH.headers (pySplitlines "a\nb\nc")).getLast?
            = some ""
         then (stripHeader pExH.headers (pySplitlines "a\nb\nc")).dropLast
         else stripHeader pExH.headers (pySplitlines "a\nb\nc"))
    ∧ ∀ n, loopRun pExH (fun _ => some "a\nb\nc") n
        (loopStep pExH (fun _ => some "a\nb\nc") sEx)
      = loopStep pExH (fun _ => some "a\nb\nc") sEx :=
  c8_overshoot pExH (fun _ => some "a\nb\nc") sEx "a\nb\nc" (by decide)
    (by decide) (by decide) rfl

/-- Witness for C6 at a concrete input. -/
theorem c6_failed_batch_retried_witness :
    (loopRun pEx (fun _ => none) 2 sEx).generated_rows = sEx.generated_rows
    ∧ (loopRun pEx (fun _ => none) 2 sEx).file = sEx.file
    ∧ (loopRun pEx (fun _ => none) (2 + 1) sEx).trace
      = generatorCall pEx sEx.generated_rows
          :: (loopRun pEx (fun _ => none) 2 sEx).trace
    ∧ rows_to_generate pEx.desired_rows
        (loopRun pEx (fun _ => none) 2 sEx).generated_rows
      = rows_to_generate pEx.desired_rows sEx.generated_rows :=
  c6_failed_batch_retried pEx (fun _ => none) sEx 2 (by decide) (fun _ => rfl)

theorem pipeline_analysis_ok (sample_data : List (List String))
    (desired_rows : Int) (model : String) (max_tokens : Int)
    (temperature : ℚ) (file0 : Option (List String)) (oracle : ℕ → ApiResp)
    (fuel : ℕ) (t : String) (hres : make_api_call (oracle 0) = some t) :
    pipeline (some sample_data) desired_rows model max_tokens temperature
        file0 oracle fuel
      = ⟨false, false,
          (loopRun
            ⟨sample_data.head?, desired_rows, model, max_tokens, temperature,
              t, joinN (sample_data.map joinComma)⟩
            (fun k => make_api_call (oracle (k + 1))) fuel
            ⟨if file0 = none then
                save_to_csv (headerData sample_data.head?) file0
                  sample_data.head?
              else file0, 0, 0, []⟩).file,
          (loopRun
            ⟨sample_data.head?, desired_rows, model, max_tokens, temperature,
              t, joinN (sample_data.map joinComma)⟩
            (fun k => make_api_call (oracle (k + 1))) fuel
            ⟨if file0 = none then
                save_to_csv (headerData sample_data.head?) file0
                  sample_data.head?
              else file0, 0, 0, []⟩).generated_rows,
          (loopRun
            ⟨sample_data.head?, desired_rows, model, max_tokens, temperature,
              t, joinN (sample_data.map joinComma)⟩
            (fun k => make_api_call (oracle (k + 1))) fuel
            ⟨if file0 = none then
                save_to_csv (headerData sample_data.head?) file0
                  sample_data.head?
              else file0, 0, 0, []⟩).trace
            ++ [analyzerCall model (joinN (sample_data.map joinComma))]⟩ := by
  unfold pipeline
  rw [hres]

theorem mem_loopRun_trace (p : Params) (g : ℕ → Option String) (n : ℕ)
    (s : LoopState) (c : Call) (hc : c ∈ (loopRun p g n s).trace) :
    c ∈ s.trace ∨ ∃ k, c = generatorCall p k := by
  induction n with
  | zero => exact Or.inl hc
  | succ n ih =>
    by_cases hact : ((loopRun p g n s).generated_rows : Int) < p.desired_rows
    · cases hg : g (loopRun p g n s).calls with
      | none =>
        rw [show loopRun p g (n + 1) s = loopStep p g (loopRun p g n s)
            from rfl,
          loopStep_none p g _ hact hg] at hc
        rcases List.mem_cons.mp hc with h | h
        · exact Or.inr ⟨_, h⟩
        · exact ih h
      | some text =>
        rw [show loopRun p g (n + 1) s = loopStep p g (loopRun p g n s)
            from rfl,
          loopStep_some p g _ text hact hg] at hc
        rcases List.mem_cons.mp hc with h | h
        · exact Or.inr ⟨_, h⟩
        · exact ih h
    · rw [show loopRun p g (n + 1) s = loopStep p g (loopRun p g n s)
          from rfl,
        loopStep_inactive p g _ hact] at hc
      exact ih hc

/-- Claim C9: every analysis-stage call of a run carries
`max_tokens = 400` and `temperature = 0.1` regardless of the
user-supplied values, and every generation-stage call carries exactly the
user-supplied `max_tokens` and `temperature`. -/
theorem c9_analysis_params_fixed (sample_data? : Option (List (List String)))
    (desired_rows : Int) (model : String) (max_tokens : Int)
    (temperature : ℚ) (file0 : Option (List String)) (oracle : ℕ → ApiResp)
    (fuel : ℕ) :
    ∀ c ∈ (pipeline sample_data? desired_rows model max_tokens temperature
        file0 oracle fuel).trace,
      (c.stage = Stage.analysis →
        c.max_tokens = 400 ∧ c.temperature = 1/10)
      ∧ (c.stage = Stage.generation →
        c.max_tokens = max_tokens ∧ c.temperature = temperature) := by
  intro c hc
  cases sample_data? with
  | none =>
    simp [pipeline] at hc
  | some sample_data =>
    cases hres : make_api_call (oracle 0) with
    | none =>
      have hpipe : pipeline (some sample_data) desired_rows model max_tokens
          temperature file0 oracle fuel
          = ⟨false, true, file0, 0,
              [analyzerCall model (joinN (sample_data.map joinComma))]⟩ := by
        unfold pipeline
        rw [hres]
      rw [hpipe] at hc
      simp only [List.mem_singleton] at hc
      subst hc
      refine ⟨fun _ => ⟨rfl, rfl⟩, fun hcon => ?_⟩
      exact absurd hcon (by simp [analyzerCall])
    | some analysis_result =>
      rw [pipeline_analysis_ok sample_data desired_rows model max_tokens
        temperature file0 oracle fuel analysis_result hres] at hc
      simp only [List.mem_append, List.mem_singleton] at hc
      rcases hc with hc | hc
      · rcases mem_loopRun_trace _ _ _ _ c hc with h | ⟨k, hk⟩
        · simp at h
        · subst hk
          refine ⟨fun hcon => ?_, fun _ => ⟨rfl, rfl⟩⟩
          exact absurd hcon (by simp [generatorCall])
      · subst hc
        refine ⟨fun _ => ⟨rfl, rfl⟩, fun hcon => ?_⟩
        exact absurd hcon (by simp [analyzerCall])

/-- Witness for C9 at a concrete input: the analysis call of a concrete
run carries `max_tokens = 400` and `temperature = 1/10`. -/
theorem c9_analysis_params_fixed_witness :
    analyzerCall "m" "a"
      ∈ (pipeline (some [["a"]]) 0 "m" 9 (1/2) none
          (fun _ => ApiResp.failure) 0).trace
    ∧ ((analyzerCall "m" "a").stage = Stage.analysis →
        (analyzerCall "m" "a").max_tokens = 400
        ∧ (analyzerCall "m" "a").temperature = 1/10)
    ∧ ((analyzerCall "m" "a").stage = Stage.generation →
        (analyzerCall "m" "a").max_tokens = 9
        ∧ (analyzerCall "m" "a").temperature = 1/2) := by
  have hmem : analyzerCall "m" "a"
      ∈ (pipeline (some [["a"]]) 0 "m" 9 (1/2) none
          (fun _ => ApiResp.failure) 0).trace := by
    show analyzerCall "m" "a" ∈ [analyzerCall "m" "a"]
    exact List.mem_singleton.mpr rfl
  have h := c9_analysis_params_fixed (some [["a"]]) 0 "m" 9 (1/2) none
    (fun _ => ApiResp.failure) 0 (analyzerCall "m" "a") hmem
  exact ⟨hmem, h.1, h.2⟩

/-- Claim C10: when the parsed row count is zero or negative and reading
and analysis succeed, the loop body runs zero times — no generator call
appears in the trace and `generated_rows` stays 0 — yet the output file
is still created (with the sample header as first record) when it did not
already exist. -/
theorem c10_nonpositive_desired_rows (sample_data : List (List String))
    (desired_rows : Int) (model : String) (max_tokens : Int)
    (temperature : ℚ) (oracle : ℕ → ApiResp) (fuel : ℕ) (t : String)
    (hdes : desired_rows ≤ 0)
    (hres : make_api_call (oracle 0) = some t)
    (hhdr : headersTruthy sample_data.head? = true)
    (hdata : headerData sample_data.head? ≠ "") :
    (pipeline (some sample_data) desired_rows model max_tokens temperature
        none oracle fuel).generated_rows = 0
    ∧ (pipeline (some sample_data) desired_rows model max_tokens temperature
        none oracle fuel).trace
      = [analyzerCall model (joinN (sample_data.map joinComma))]
    ∧ (pipeline (some sample_data) desired_rows model max_tokens temperature
        none oracle fuel).file
      = some (joinComma (sample_data.head?.getD [])
          :: writtenRows (headerData sample_data.head?)) := by
  have hfile1 : save_to_csv (headerData sample_data.head?) none
      sample_data.head?
      = some (joinComma (sample_data.head?.getD [])
          :: writtenRows (headerData sample_data.head?)) := by
    unfold save_to_csv
    rw [if_neg hdata, if_pos ⟨hhdr, rfl⟩]
  have hloop : ∀ (p : Params) (g : ℕ → Option String) (s : LoopState),
      p.desired_rows = desired_rows → s.generated_rows = 0 →
      loopRun p g fuel s = s := by
    intro p g s hp hs
    apply loopRun_inactive
    rw [hp, hs]
    simp only [Nat.cast_zero, not_lt]
    omega
  rw [pipeline_analysis_ok sample_data desired_rows model max_tokens
    temperature none oracle fuel t hres]
  rw [hloop _ _ _ rfl rfl]
  rw [show (if (none : Option (List String)) = none then
      save_to_csv (headerData sample_data.head?) none sample_data.head?
    else none) = save_to_csv (headerData sample_data.head?) none
      sample_data.head? from rfl]
  rw [hfile1]
  exact ⟨rfl, rfl, rfl⟩

/-- Witness for C10 at a concrete input. -/
theorem c10_nonpositive_desired_rows_witness :
    (pipeline (some [["id", "value"]]) 0 "m" 1500 (7/10) none
        (fun _ => ApiResp.success ["A"]) 4).generated_rows = 0
    ∧ (pipeline (some [["id", "value"]]) 0 "m" 1500 (7/10) none
        (fun _ => ApiResp.success ["A"]) 4).trace
      = [analyzerCall "m" (joinN ([["id", "value"]].map joinComma))]
    ∧ (pipeline (some [["id", "value"]]) 0 "m" 1500 (7/10) none
        (fun _ => ApiResp.success ["A"]) 4).file
      = some (joinComma ([["id", "value"]].head?.getD [])
          :: writtenRows (headerData [["id", "value"]].head?)) :=
  c10_nonpositive_desired_rows [["id", "value"]] 0 "m" 1500 (7/10)
    (fun _ => ApiResp.success ["A"]) 4 "A" (by decide) rfl (by decide)
    (by decide)

/-- Claim C7: for every positive `desired_rows`, if the backend never
permanently fails — from every point on there is a later generator call
that succeeds with at least one post-strip line — then the batch
synthesis loop reaches a state with
`generated_rows >= desired_rows` after finitely many iterations. -/
theorem c7_loop_terminates (p : Params) (g : ℕ → Option String)
    (file0 : Option (List String))
    (_hpos : 0 < p.desired_rows)
    (hgood : ∀ i, ∃ j, i ≤ j ∧ goodResp p (g j) = true) :
    ∃ n, p.desired_rows
      ≤ ((loopRun p g n ⟨file0, 0, 0, []⟩).generated_rows : Int) := by
  by_contra hcon
  push_neg at hcon
  have hcalls : ∀ n, (loopRun p g n ⟨file0, 0, 0, []⟩).calls = n := by
    intro n
    induction n with
    | zero => rfl
    | succ n ih =>
      show (loopStep p g (loopRun p g n ⟨file0, 0, 0, []⟩)).calls = n + 1
      rw [loopStep_calls p g _ (hcon n), ih]
  have hgrow : ∀ k, ∃ n,
      k ≤ (loopRun p g n ⟨file0, 0, 0, []⟩).generated_rows := by
    intro k
    induction k with
    | zero => exact ⟨0, Nat.zero_le _⟩
    | succ k ih =>
      rcases ih with ⟨n, hk⟩
      rcases hgood n with ⟨j, hnj, hj⟩
      have h1 : (loopRun p g n ⟨file0, 0, 0, []⟩).generated_rows
          ≤ (loopRun p g j ⟨file0, 0, 0, []⟩).generated_rows :=
        loopRun_gen_mono p g _ hnj
      have hgj : goodResp p
          (g (loopRun p g j ⟨file0, 0, 0, []⟩).calls) = true := by
        rw [hcalls j]; exact hj
      have h2 : (loopRun p g j ⟨file0, 0, 0, []⟩).generated_rows + 1
          ≤ (loopRun p g (j + 1) ⟨file0, 0, 0, []⟩).generated_rows :=
        loopStep_good p g _ (hcon j) hgj
      exact ⟨j + 1, by omega⟩
  rcases hgrow p.desired_rows.toNat with ⟨n, hn⟩
  have hfin : p.desired_rows
      ≤ ((loopRun p g n ⟨file0, 0, 0, []⟩).generated_rows : Int) := by
    calc p.desired_rows ≤ (p.desired_rows.toNat : Int) :=
          Int.self_le_toNat _
    _ ≤ _ := by exact_mod_cast hn
  exact absurd hfin (not_le.mpr (hcon n))

/-- Witness for C7 at a concrete input: a backend that always returns one
data row drives the loop to five rows. -/
theorem c7_loop_terminates_witness :
    ∃ n, pEx.desired_rows
      ≤ ((loopRun pEx (fun _ => some "a,b") n
          ⟨none, 0, 0, []⟩).generated_rows : Int) :=
  c7_loop_terminates pEx (fun _ => some "a,b") none (by decide)
    (fun i => ⟨i, le_refl i, rfl⟩)

end AIDataGen
